import Mathlib

/-!
Verification of the clinical decision support scoring core.

The Python sources are embedded shallowly: machine floats become exact
rationals, Python dicts become association lists keyed by their lookup key,
Python sets that are only iterated become lists, and the three session sets
become finite sets of strings.  Message strings are kept as fixed tags,
since no property depends on their formatted numeric content.
-/

/-- Lookup in an association list, mirroring a Python dict `get`. -/
def assocFind {κ α : Type} [DecidableEq κ] : List (κ × α) → κ → Option α
  | [], _ => none
  | (k, v) :: rest, key => if k = key then some v else assocFind rest key

/-- Profile of a single phenotype within a module (data_loader.PhenotypeProfile). -/
structure PhenotypeProfile where
  name : String
  hpo_id : String
  genes_with : List String
  genes_without : List String
  prevalence : ℚ
  specificity : ℚ
  non_target_ird_genes : List String
  non_ird_genes : List String
deriving DecidableEq, Repr

/-- Complete profile for a disease module (data_loader.ModuleProfile). -/
structure ModuleProfile where
  module_id : ℤ
  phenotypes : List (String × PhenotypeProfile)
  all_genes : List String
deriving DecidableEq, Repr

/-- Information about a single gene (data_loader.GeneInfo). -/
structure GeneInfo where
  gene : String
  module_id : ℤ
  stability_score : ℚ
  classification : String
deriving DecidableEq, Repr

/-- Information about a single phenotype in a result (output_models.PhenotypeInfo). -/
structure PhenotypeInfo where
  name : String
  hpo_id : String
  prevalence : ℚ
  specificity : ℚ
  genes : List String
deriving DecidableEq, Repr

/-- Result of module scoring (output_models.ModuleMatch). -/
structure ModuleMatch where
  module_id : ℤ
  score : ℚ
  confidence : ℚ
  gene_count : ℕ
  contributing_phenotypes : List PhenotypeInfo
  penalized_phenotypes : List PhenotypeInfo
deriving DecidableEq, Repr

/-- A prioritized gene candidate within a module (output_models.GeneCandidate). -/
structure GeneCandidate where
  gene : String
  module_id : ℤ
  support_score : ℚ
  stability_score : ℚ
  classification : String
  supporting_phenotypes : List String
deriving DecidableEq, Repr

/-- Explanation for a scoring decision (output_models.ExplainabilityItem). -/
structure ExplainabilityItem where
  phenotype_name : String
  hpo_id : String
  contribution : ℚ
  explanation : String
deriving DecidableEq, Repr

/-- The loaded reference data (data_loader.DataLoader after load). -/
structure DataLoader where
  module_profiles : List (ℤ × ModuleProfile)
  gene_mapping : List (String × GeneInfo)
  module_genes : List (ℤ × List String)
  phenotype_to_modules : List (String × List ℤ)
  phenotype_name_to_hpo : List (String × String)
deriving DecidableEq, Repr

/-- data_loader.DataLoader.get_module_profile. -/
def DataLoader.get_module_profile (loader : DataLoader) (module_id : ℤ) :
    Option ModuleProfile :=
  assocFind loader.module_profiles module_id

/-- data_loader.DataLoader.get_gene_info. -/
def DataLoader.get_gene_info (loader : DataLoader) (gene : String) : Option GeneInfo :=
  assocFind loader.gene_mapping gene

/-- data_loader.DataLoader.get_module_genes. -/
def DataLoader.get_module_genes (loader : DataLoader) (module_id : ℤ) : List String :=
  (assocFind loader.module_genes module_id).getD []

/-- data_loader.DataLoader.get_all_module_ids: sorted keys of the profile dict. -/
def DataLoader.get_all_module_ids (loader : DataLoader) : List ℤ :=
  List.insertionSort (fun a b => a ≤ b) (loader.module_profiles.map Prod.fst)

/-- Python str.startswith, modelled over the character list so that concrete
instances reduce inside the kernel. -/
def strStartsWith (s p : String) : Bool := p.data.isPrefixOf s.data

/-- Python str.lower, modelled over the character list. -/
def strToLower (s : String) : String := ⟨s.data.map Char.toLower⟩

/-- data_loader.DataLoader.resolve_phenotype. -/
def DataLoader.resolve_phenotype (loader : DataLoader) (identifier : String) :
    Option String :=
  if strStartsWith identifier "HP:" then
    if (assocFind loader.phenotype_to_modules identifier).isSome then some identifier
    else none
  else
    assocFind loader.phenotype_name_to_hpo (strToLower identifier)

/-- Configuration for scoring weights and penalties (scoring_engine.ScoringConfig). -/
structure ScoringConfig where
  prevalence_weight : ℚ
  specificity_weight : ℚ
  exclusion_penalty : ℚ
  stability_bonus : ℚ
  min_confidence_threshold : ℚ
deriving DecidableEq, Repr

/-- Default field values of scoring_engine.ScoringConfig. -/
def defaultScoringConfig : ScoringConfig :=
  { prevalence_weight := 1
    specificity_weight := 1
    exclusion_penalty := 1/2
    stability_bonus := 1/10
    min_confidence_threshold := 1/10 }

/-- scoring_engine.ScoringEngine: a loader plus a configuration. -/
structure ScoringEngine where
  loader : DataLoader
  config : ScoringConfig
deriving DecidableEq, Repr

/-- scoring_engine.ScoringEngine.score_phenotype. -/
def ScoringEngine.score_phenotype (e : ScoringEngine) (pheno : PhenotypeProfile) : ℚ :=
  let prevalence := pheno.prevalence / 100
  let specificity := pheno.specificity / 100
  e.config.prevalence_weight * prevalence + e.config.specificity_weight * specificity

/-- The explanation items produced by the observed loop of score_module:
one item per observed identifier found in the phenotype map. -/
def ScoringEngine.observedItems (e : ScoringEngine) (profile : ModuleProfile)
    (observed_hpo_ids : List String) : List ExplainabilityItem :=
  observed_hpo_ids.filterMap fun hpo_id =>
    (assocFind profile.phenotypes hpo_id).map fun pheno =>
      { phenotype_name := pheno.name
        hpo_id := hpo_id
        contribution := e.score_phenotype pheno
        explanation := "Present in module" }

/-- The explanation items produced by the excluded loop of score_module:
one item per excluded identifier found in the phenotype map with positive
prevalence, carrying the negated penalty as its contribution. -/
def ScoringEngine.excludedItems (e : ScoringEngine) (profile : ModuleProfile)
    (excluded_hpo_ids : List String) : List ExplainabilityItem :=
  excluded_hpo_ids.filterMap fun hpo_id =>
    (assocFind profile.phenotypes hpo_id).bind fun pheno =>
      if 0 < pheno.prevalence then
        some { phenotype_name := pheno.name
               hpo_id := hpo_id
               contribution := -(e.score_phenotype pheno * e.config.exclusion_penalty)
               explanation := "Excluded but present in module (penalty)" }
      else none

/-- scoring_engine.ScoringEngine.score_module: the running score is the sum of
the signed contributions accumulated by the two loops, floored at 0. -/
def ScoringEngine.score_module (e : ScoringEngine) (module_id : ℤ)
    (observed_hpo_ids excluded_hpo_ids : List String) :
    ℚ × List ExplainabilityItem :=
  match e.loader.get_module_profile module_id with
  | none => (0, [])
  | some profile =>
    let obs := e.observedItems profile observed_hpo_ids
    let exc := e.excludedItems profile excluded_hpo_ids
    (max 0 ((obs.map ExplainabilityItem.contribution).sum +
        (exc.map ExplainabilityItem.contribution).sum),
      obs ++ exc)

/-- Spec formula for a single phenotype score, transcribed from the
specification text for score_phenotype. -/
def specPhenotypeScore (config : ScoringConfig) (pheno : PhenotypeProfile) : ℚ :=
  config.prevalence_weight * (pheno.prevalence / 100) +
    config.specificity_weight * (pheno.specificity / 100)

/-- Spec formula for a module score, transcribed from the specification text
for score_module: reward found observed identifiers, penalize found excluded
identifiers with positive prevalence, floor the signed sum at 0. -/
def specModuleScore (config : ScoringConfig) (profile : ModuleProfile)
    (observed_hpo_ids excluded_hpo_ids : List String) : ℚ :=
  max 0
    ((observed_hpo_ids.map fun hpo_id =>
        match assocFind profile.phenotypes hpo_id with
        | some pheno => specPhenotypeScore config pheno
        | none => 0).sum -
      (excluded_hpo_ids.map fun hpo_id =>
        match assocFind profile.phenotypes hpo_id with
        | some pheno =>
          if 0 < pheno.prevalence then
            specPhenotypeScore config pheno * config.exclusion_penalty
          else 0
        | none => 0).sum)

lemma observedItems_cons_none (e : ScoringEngine) (profile : ModuleProfile)
    {h : String} (t : List String) (hf : assocFind profile.phenotypes h = none) :
    e.observedItems profile (h :: t) = e.observedItems profile t := by
  simp [ScoringEngine.observedItems, List.filterMap_cons, hf]

lemma observedItems_cons_some (e : ScoringEngine) (profile : ModuleProfile)
    {h : String} (t : List String) {pheno : PhenotypeProfile}
    (hf : assocFind profile.phenotypes h = some pheno) :
    e.observedItems profile (h :: t) =
      { phenotype_name := pheno.name
        hpo_id := h
        contribution := e.score_phenotype pheno
        explanation := "Present in module" } :: e.observedItems profile t := by
  simp [ScoringEngine.observedItems, List.filterMap_cons, hf]

lemma excludedItems_cons_none (e : ScoringEngine) (profile : ModuleProfile)
    {h : String} (t : List String) (hf : assocFind profile.phenotypes h = none) :
    e.excludedItems profile (h :: t) = e.excludedItems profile t := by
  simp [ScoringEngine.excludedItems, List.filterMap_cons, hf]

lemma excludedItems_cons_zero (e : ScoringEngine) (profile : ModuleProfile)
    {h : String} (t : List String) {pheno : PhenotypeProfile}
    (hf : assocFind profile.phenotypes h = some pheno)
    (hp : ¬ 0 < pheno.prevalence) :
    e.excludedItems profile (h :: t) = e.excludedItems profile t := by
  simp [ScoringEngine.excludedItems, List.filterMap_cons, hf, hp]

lemma excludedItems_cons_some (e : ScoringEngine) (profile : ModuleProfile)
    {h : String} (t : List String) {pheno : PhenotypeProfile}
    (hf : assocFind profile.phenotypes h = some pheno)
    (hp : 0 < pheno.prevalence) :
    e.excludedItems profile (h :: t) =
      { phenotype_name := pheno.name
        hpo_id := h
        contribution := -(e.score_phenotype pheno * e.config.exclusion_penalty)
        explanation := "Excluded but present in module (penalty)" } ::
        e.excludedItems profile t := by
  simp [ScoringEngine.excludedItems, List.filterMap_cons, hf, hp]

lemma observedItems_contrib_sum (e : ScoringEngine) (profile : ModuleProfile)
    (observed_hpo_ids : List String) :
    ((e.observedItems profile observed_hpo_ids).map ExplainabilityItem.contribution).sum =
      (observed_hpo_ids.map fun hpo_id =>
        match assocFind profile.phenotypes hpo_id with
        | some pheno => e.score_phenotype pheno
        | none => 0).sum := by
  induction observed_hpo_ids with
  | nil => rfl
  | cons h t ih =>
    rw [List.map_cons, List.sum_cons]
    cases hf : assocFind profile.phenotypes h with
    | none =>
      rw [observedItems_cons_none e profile t hf, ih]
      simp
    | some pheno =>
      rw [observedItems_cons_some e profile t hf, List.map_cons, List.sum_cons, ih]

lemma excludedItems_contrib_sum (e : ScoringEngine) (profile : ModuleProfile)
    (excluded_hpo_ids : List String) :
    ((e.excludedItems profile excluded_hpo_ids).map ExplainabilityItem.contribution).sum =
      -(excluded_hpo_ids.map fun hpo_id =>
        match assocFind profile.phenotypes hpo_id with
        | some pheno =>
          if 0 < pheno.prevalence then
            e.score_phenotype pheno * e.config.exclusion_penalty
          else 0
        | none => 0).sum := by
  induction excluded_hpo_ids with
  | nil => rfl
  | cons h t ih =>
    rw [List.map_cons, List.sum_cons]
    cases hf : assocFind profile.phenotypes h with
    | none =>
      rw [excludedItems_cons_none e profile t hf, ih]
      simp
    | some pheno =>
      by_cases hp : 0 < pheno.prevalence
      · rw [excludedItems_cons_some e profile t hf hp, List.map_cons, List.sum_cons, ih]
        simp only [if_pos hp]
        ring
      · rw [excludedItems_cons_zero e profile t hf hp, ih]
        simp [hp]

lemma score_phenotype_eq_spec (e : ScoringEngine) (pheno : PhenotypeProfile) :
    e.score_phenotype pheno = specPhenotypeScore e.config pheno := rfl

/-- C1: for a module identifier whose profile exists, score_module returns the
spec formula: the sum over observed identifiers found in the phenotype map of
prevalence_weight·(prevalence/100) + specificity_weight·(specificity/100),
minus, for every excluded identifier found with prevalence > 0, the same
phenotype score multiplied by exclusion_penalty; identifiers not found
contribute nothing, and the result is floored at 0. -/
theorem score_module_eq_spec (e : ScoringEngine) (module_id : ℤ)
    (profile : ModuleProfile)
    (h : e.loader.get_module_profile module_id = some profile)
    (observed_hpo_ids excluded_hpo_ids : List String) :
    (e.score_module module_id observed_hpo_ids excluded_hpo_ids).1 =
      specModuleScore e.config profile observed_hpo_ids excluded_hpo_ids := by
  simp only [ScoringEngine.score_module, h, specModuleScore]
  rw [observedItems_contrib_sum, excludedItems_contrib_sum]
  simp only [score_phenotype_eq_spec, sub_eq_add_neg]

/-- A small concrete phenotype used by the concrete checks below. -/
def phenoObesity : PhenotypeProfile :=
  { name := "Obesity"
    hpo_id := "HP:0001513"
    genes_with := ["BBS1", "BBS2"]
    genes_without := ["BBS4"]
    prevalence := 80
    specificity := 40
    non_target_ird_genes := []
    non_ird_genes := [] }

/-- A second concrete phenotype. -/
def phenoPolydactyly : PhenotypeProfile :=
  { name := "Polydactyly"
    hpo_id := "HP:0010442"
    genes_with := ["BBS1"]
    genes_without := ["BBS2", "BBS4"]
    prevalence := 50
    specificity := 60
    non_target_ird_genes := []
    non_ird_genes := [] }

/-- A phenotype recorded with zero prevalence, to exercise the penalty gate. -/
def phenoZero : PhenotypeProfile :=
  { name := "Nystagmus"
    hpo_id := "HP:0000639"
    genes_with := []
    genes_without := ["BBS1", "BBS2", "BBS4"]
    prevalence := 0
    specificity := 10
    non_target_ird_genes := []
    non_ird_genes := [] }

/-- A concrete module profile with three phenotypes. -/
def moduleOne : ModuleProfile :=
  { module_id := 1
    phenotypes :=
      [("HP:0001513", phenoObesity), ("HP:0010442", phenoPolydactyly),
        ("HP:0000639", phenoZero)]
    all_genes := ["BBS1", "BBS2", "BBS4"] }

/-- A concrete module profile with no phenotypes. -/
def moduleTwo : ModuleProfile :=
  { module_id := 2
    phenotypes := []
    all_genes := [] }

/-- A concrete loader holding the two modules above. -/
def demoLoader : DataLoader :=
  { module_profiles := [(1, moduleOne), (2, moduleTwo)]
    gene_mapping :=
      [("BBS1",
          { gene := "BBS1", module_id := 1, stability_score := 9/10,
            classification := "core" }),
        ("BBS2",
          { gene := "BBS2", module_id := 1, stability_score := 1/2,
            classification := "peripheral" }),
        ("BBS4",
          { gene := "BBS4", module_id := 1, stability_score := 1/5,
            classification := "unstable" })]
    module_genes := [(1, ["BBS1", "BBS2", "BBS4"])]
    phenotype_to_modules :=
      [("HP:0001513", [1]), ("HP:0010442", [1]), ("HP:0000639", [1])]
    phenotype_name_to_hpo :=
      [("obesity", "HP:0001513"), ("polydactyly", "HP:0010442"),
        ("nystagmus", "HP:0000639")] }

/-- A concrete engine over the demo loader with the default configuration. -/
def demoEngine : ScoringEngine :=
  { loader := demoLoader, config := defaultScoringConfig }

/-- Witness for C1 at a concrete engine, module and input sets. -/
theorem score_module_eq_spec_witness :
    demoEngine.loader.get_module_profile 1 = some moduleOne ∧
      (demoEngine.score_module 1 ["HP:0001513", "HP:0000000"] ["HP:0010442"]).1 =
        specModuleScore demoEngine.config moduleOne
          ["HP:0001513", "HP:0000000"] ["HP:0010442"] :=
  ⟨by decide,
    score_module_eq_spec demoEngine 1 moduleOne (by decide)
      ["HP:0001513", "HP:0000000"] ["HP:0010442"]⟩

/-- The PhenotypeInfo built inside the rank_modules loop for one phenotype. -/
def mkPhenotypeInfo (hpo_id : String) (pheno : PhenotypeProfile) : PhenotypeInfo :=
  { name := pheno.name
    hpo_id := hpo_id
    prevalence := pheno.prevalence
    specificity := pheno.specificity
    genes := pheno.genes_with }

/-- Body of the rank_modules loop: the unranked ModuleMatch built for one
module identifier (confidence still 0). -/
def ScoringEngine.moduleEntry (e : ScoringEngine)
    (observed_hpo_ids excluded_hpo_ids : List String) (module_id : ℤ) : ModuleMatch :=
  let scored := e.score_module module_id observed_hpo_ids excluded_hpo_ids
  let profile := e.loader.get_module_profile module_id
  let gene_count := match profile with
    | some p => p.all_genes.length
    | none => 0
  let infoFor : ExplainabilityItem → Option PhenotypeInfo := fun exp =>
    match profile with
    | some p => (assocFind p.phenotypes exp.hpo_id).map (mkPhenotypeInfo exp.hpo_id)
    | none => none
  let contributing := scored.2.filterMap fun exp =>
    (infoFor exp).bind fun info =>
      if 0 < exp.contribution then some info else none
  let penalized := scored.2.filterMap fun exp =>
    (infoFor exp).bind fun info =>
      if 0 < exp.contribution then none else some info
  { module_id := module_id
    score := scored.1
    confidence := 0
    gene_count := gene_count
    contributing_phenotypes := contributing
    penalized_phenotypes := penalized }

/-- The descending-score ordering used to sort module matches. -/
def scoreDesc (a b : ModuleMatch) : Prop := b.score ≤ a.score

instance : DecidableRel scoreDesc :=
  fun a b => inferInstanceAs (Decidable (b.score ≤ a.score))

instance : IsTotal ModuleMatch scoreDesc := ⟨fun a b => le_total b.score a.score⟩

instance : IsTrans ModuleMatch scoreDesc := ⟨fun _ _ _ hab hbc => le_trans hbc hab⟩

/-- Confidence assignment applied to the sorted results (tail of rank_modules). -/
def assignConfidence : List ModuleMatch → List ModuleMatch
  | r0 :: r1 :: rest =>
    if 0 < r0.score then
      let separation := (r0.score - r1.score) / r0.score
      let top := { r0 with confidence := min 1 (max 0 separation) }
      top :: (r1 :: rest).map fun m =>
        if 0 < top.score then
          { m with confidence := m.score / top.score * (1 - top.confidence) }
        else m
    else r0 :: r1 :: rest
  | [r0] => if 0 < r0.score then [{ r0 with confidence := 1 }] else [r0]
  | [] => []

/-- scoring_engine.ScoringEngine.rank_modules: score every known module, sort
by score descending, then assign confidences. -/
def ScoringEngine.rank_modules (e : ScoringEngine)
    (observed_hpo_ids excluded_hpo_ids : List String) : List ModuleMatch :=
  assignConfidence (List.insertionSort scoreDesc
    ((e.loader.get_all_module_ids).map (e.moduleEntry observed_hpo_ids excluded_hpo_ids)))

lemma moduleEntry_module_id (e : ScoringEngine)
    (observed_hpo_ids excluded_hpo_ids : List String) (module_id : ℤ) :
    (e.moduleEntry observed_hpo_ids excluded_hpo_ids module_id).module_id = module_id := rfl

lemma moduleEntry_score (e : ScoringEngine)
    (observed_hpo_ids excluded_hpo_ids : List String) (module_id : ℤ) :
    (e.moduleEntry observed_hpo_ids excluded_hpo_ids module_id).score =
      (e.score_module module_id observed_hpo_ids excluded_hpo_ids).1 := rfl

lemma moduleEntry_confidence (e : ScoringEngine)
    (observed_hpo_ids excluded_hpo_ids : List String) (module_id : ℤ) :
    (e.moduleEntry observed_hpo_ids excluded_hpo_ids module_id).confidence = 0 := rfl

lemma score_module_fst_nonneg (e : ScoringEngine) (module_id : ℤ)
    (observed_hpo_ids excluded_hpo_ids : List String) :
    0 ≤ (e.score_module module_id observed_hpo_ids excluded_hpo_ids).1 := by
  unfold ScoringEngine.score_module
  cases e.loader.get_module_profile module_id with
  | none => exact le_refl 0
  | some profile => exact le_max_left 0 _

lemma assignConfidence_map_module_id (l : List ModuleMatch) :
    (assignConfidence l).map ModuleMatch.module_id = l.map ModuleMatch.module_id := by
  cases l with
  | nil => rfl
  | cons r0 t =>
    cases t with
    | nil =>
      simp only [assignConfidence]
      by_cases h0 : 0 < r0.score
      · rw [if_pos h0]
        rfl
      · rw [if_neg h0]
    | cons r1 rest =>
      simp only [assignConfidence]
      by_cases h0 : 0 < r0.score
      · simp [if_pos h0, List.map_map, Function.comp_def]
      · rw [if_neg h0]

lemma assignConfidence_map_score (l : List ModuleMatch) :
    (assignConfidence l).map ModuleMatch.score = l.map ModuleMatch.score := by
  cases l with
  | nil => rfl
  | cons r0 t =>
    cases t with
    | nil =>
      simp only [assignConfidence]
      by_cases h0 : 0 < r0.score
      · rw [if_pos h0]
        rfl
      · rw [if_neg h0]
    | cons r1 rest =>
      simp only [assignConfidence]
      by_cases h0 : 0 < r0.score
      · simp [if_pos h0, List.map_map, Function.comp_def]
      · rw [if_neg h0]

lemma sorted_scoreDesc_iff (l : List ModuleMatch) :
    l.Sorted scoreDesc ↔ (l.map ModuleMatch.score).Pairwise (fun a b => b ≤ a) := by
  rw [List.Sorted, List.pairwise_map]
  exact Iff.rfl

lemma rawEntries_map_module_id (e : ScoringEngine)
    (observed_hpo_ids excluded_hpo_ids : List String) :
    (((e.loader.get_all_module_ids).map
        (e.moduleEntry observed_hpo_ids excluded_hpo_ids)).map ModuleMatch.module_id) =
      e.loader.get_all_module_ids := by
  rw [List.map_map]
  simp only [Function.comp_def, moduleEntry_module_id]
  exact List.map_id _

/-- C2: rank_modules returns exactly one ModuleMatch per known module
identifier, zero-score modules included (its module identifiers are a
permutation of get_all_module_ids), and the list is sorted by score in
descending order. -/
theorem rank_modules_complete_and_sorted (e : ScoringEngine)
    (observed_hpo_ids excluded_hpo_ids : List String) :
    List.Perm
        ((e.rank_modules observed_hpo_ids excluded_hpo_ids).map ModuleMatch.module_id)
        (e.loader.get_all_module_ids) ∧
      (e.rank_modules observed_hpo_ids excluded_hpo_ids).Sorted scoreDesc := by
  unfold ScoringEngine.rank_modules
  constructor
  · rw [assignConfidence_map_module_id]
    have h1 : List.Perm
        ((List.insertionSort scoreDesc
            ((e.loader.get_all_module_ids).map
              (e.moduleEntry observed_hpo_ids excluded_hpo_ids))).map ModuleMatch.module_id)
        (((e.loader.get_all_module_ids).map
            (e.moduleEntry observed_hpo_ids excluded_hpo_ids)).map ModuleMatch.module_id) :=
      (List.perm_insertionSort scoreDesc _).map _
    have h2 := rawEntries_map_module_id e observed_hpo_ids excluded_hpo_ids
    rw [h2] at h1
    exact h1
  · rw [sorted_scoreDesc_iff, assignConfidence_map_score, ← sorted_scoreDesc_iff]
    exact List.sorted_insertionSort scoreDesc _

lemma assignConfidence_confidence_unit (l : List ModuleMatch)
    (hscore : ∀ m ∈ l, 0 ≤ m.score)
    (hconf : ∀ m ∈ l, m.confidence = 0)
    (hsorted : l.Sorted scoreDesc) :
    ∀ mm ∈ assignConfidence l, 0 ≤ mm.confidence ∧ mm.confidence ≤ 1 := by
  cases l with
  | nil => intro mm hmm; simp [assignConfidence] at hmm
  | cons r0 t =>
    cases t with
    | nil =>
      intro mm hmm
      simp only [assignConfidence] at hmm
      by_cases h0 : 0 < r0.score
      · rw [if_pos h0] at hmm
        simp only [List.mem_singleton] at hmm
        subst hmm
        exact ⟨by norm_num, by norm_num⟩
      · rw [if_neg h0] at hmm
        simp only [List.mem_singleton] at hmm
        subst hmm
        rw [hconf mm (by simp)]
        exact ⟨le_refl 0, by norm_num⟩
    | cons r1 rest =>
      intro mm hmm
      by_cases h0 : 0 < r0.score
      · simp only [assignConfidence, if_pos h0] at hmm
        rcases List.mem_cons.mp hmm with htop | hother
        · subst htop
          refine ⟨le_min (by norm_num) (le_max_left 0 _), min_le_left _ _⟩
        · obtain ⟨m, hm, rfl⟩ := List.mem_map.mp hother
          have hm0 : 0 ≤ m.score := hscore m (List.mem_cons_of_mem r0 hm)
          have hms : m.score ≤ r0.score := List.rel_of_sorted_cons hsorted m hm
          have hc0a : (0:ℚ) ≤ min 1 (max 0 ((r0.score - r1.score) / r0.score)) :=
            le_min (by norm_num) (le_max_left 0 _)
          have hc0b : min 1 (max 0 ((r0.score - r1.score) / r0.score)) ≤ (1:ℚ) :=
            min_le_left _ _
          constructor
          · exact mul_nonneg (div_nonneg hm0 (le_of_lt h0)) (by linarith)
          · have h1 : m.score / r0.score ≤ 1 := (div_le_one h0).mpr hms
            calc m.score / r0.score * (1 - min 1 (max 0 ((r0.score - r1.score) / r0.score)))
                ≤ 1 * 1 :=
                  mul_le_mul h1 (by linarith) (by linarith) (by norm_num)
              _ = 1 := one_mul 1
      · simp only [assignConfidence, if_neg h0] at hmm
        rw [hconf mm hmm]
        exact ⟨le_refl 0, by norm_num⟩

/-- C4: every ModuleMatch returned by rank_modules has confidence in [0,1]:
the top confidence is clamped there, and every other confidence, computed as
(score over top score) times (1 minus top confidence) without an explicit
clamp, still lies in [0,1] because scores are nonnegative and the list is
sorted descending. -/
theorem rank_modules_confidence_in_unit (e : ScoringEngine)
    (observed_hpo_ids excluded_hpo_ids : List String) :
    ∀ mm ∈ e.rank_modules observed_hpo_ids excluded_hpo_ids,
      0 ≤ mm.confidence ∧ mm.confidence ≤ 1 := by
  unfold ScoringEngine.rank_modules
  apply assignConfidence_confidence_unit
  · intro m hm
    rw [List.mem_insertionSort] at hm
    obtain ⟨mid, _, rfl⟩ := List.mem_map.mp hm
    exact score_module_fst_nonneg e mid _ _
  · intro m hm
    rw [List.mem_insertionSort] at hm
    obtain ⟨mid, _, rfl⟩ := List.mem_map.mp hm
    rfl
  · exact List.sorted_insertionSort scoreDesc _

lemma rank_modules_length (e : ScoringEngine)
    (observed_hpo_ids excluded_hpo_ids : List String) :
    (e.rank_modules observed_hpo_ids excluded_hpo_ids).length =
      (e.loader.get_all_module_ids).length := by
  unfold ScoringEngine.rank_modules
  rw [← List.length_map (assignConfidence _) ModuleMatch.module_id,
    assignConfidence_map_module_id, List.length_map, List.length_insertionSort,
    List.length_map]

lemma demoRank_ne_nil : demoEngine.rank_modules ["HP:0001513"] [] ≠ [] := by
  intro hnil
  have h := rank_modules_length demoEngine ["HP:0001513"] []
  rw [hnil] at h
  have h2 : (demoEngine.loader.get_all_module_ids).length = 2 := by decide
  rw [h2] at h
  simp at h

/-- Witness for C4 at a concrete engine, applied to the head of the ranking. -/
theorem rank_modules_confidence_in_unit_witness :
    (demoEngine.rank_modules ["HP:0001513"] []).head demoRank_ne_nil ∈
        demoEngine.rank_modules ["HP:0001513"] [] ∧
      0 ≤ ((demoEngine.rank_modules ["HP:0001513"] []).head demoRank_ne_nil).confidence ∧
        ((demoEngine.rank_modules ["HP:0001513"] []).head demoRank_ne_nil).confidence ≤ 1 :=
  ⟨List.head_mem _,
    rank_modules_confidence_in_unit demoEngine ["HP:0001513"] [] _ (List.head_mem _)⟩

/-- C3: for every input on which exactly one module receives a positive score
and every other known module scores 0, the ModuleMatch returned for that
module by rank_modules has confidence exactly 1, both when it is the only
known module and when other zero-score modules exist. -/
theorem rank_modules_unique_positive_confidence (e : ScoringEngine)
    (observed_hpo_ids excluded_hpo_ids : List String) (m : ℤ)
    (hnd : (e.loader.module_profiles.map Prod.fst).Nodup)
    (hmem : m ∈ e.loader.get_all_module_ids)
    (hpos : 0 < (e.score_module m observed_hpo_ids excluded_hpo_ids).1)
    (hzero : ∀ m2 ∈ e.loader.get_all_module_ids, m2 ≠ m →
      (e.score_module m2 observed_hpo_ids excluded_hpo_ids).1 = 0) :
    (∃ mm ∈ e.rank_modules observed_hpo_ids excluded_hpo_ids, mm.module_id = m) ∧
      ∀ mm ∈ e.rank_modules observed_hpo_ids excluded_hpo_ids,
        mm.module_id = m → mm.confidence = 1 := by
  have hperm := List.perm_insertionSort scoreDesc
    ((e.loader.get_all_module_ids).map (e.moduleEntry observed_hpo_ids excluded_hpo_ids))
  have hsorted := List.sorted_insertionSort scoreDesc
    ((e.loader.get_all_module_ids).map (e.moduleEntry observed_hpo_ids excluded_hpo_ids))
  set ids := e.loader.get_all_module_ids with hids
  set raw := ids.map (e.moduleEntry observed_hpo_ids excluded_hpo_ids) with hrawdef
  set L := List.insertionSort scoreDesc raw with hLdef
  have hids_nodup : ids.Nodup := by
    rw [hids]
    unfold DataLoader.get_all_module_ids
    exact (List.perm_insertionSort _ _).nodup_iff.mpr hnd
  have hmementry : e.moduleEntry observed_hpo_ids excluded_hpo_ids m ∈ L := by
    rw [hLdef, List.mem_insertionSort, hrawdef]
    exact List.mem_map_of_mem _ hmem
  have hLentries : ∀ mm ∈ L,
      ∃ mid ∈ ids, mm = e.moduleEntry observed_hpo_ids excluded_hpo_ids mid := by
    intro mm hmm
    rw [hLdef, List.mem_insertionSort, hrawdef] at hmm
    obtain ⟨mid, hmid, rfl⟩ := List.mem_map.mp hmm
    exact ⟨mid, hmid, rfl⟩
  have hmap_nodup : (L.map ModuleMatch.module_id).Nodup := by
    have h1 : List.Perm (L.map ModuleMatch.module_id) (raw.map ModuleMatch.module_id) :=
      hperm.map _
    have h2 : raw.map ModuleMatch.module_id = ids :=
      rawEntries_map_module_id e observed_hpo_ids excluded_hpo_ids
    rw [h2] at h1
    exact h1.nodup_iff.mpr hids_nodup
  obtain ⟨r0, t, hL⟩ : ∃ r0 t, L = r0 :: t := by
    cases hLc : L with
    | nil =>
      rw [hLc] at hmementry
      exact absurd hmementry (List.not_mem_nil _)
    | cons a b => exact ⟨a, b, rfl⟩
  have hr0mem : r0 ∈ L := by
    rw [hL]
    exact List.mem_cons_self _ _
  have hr0pos : 0 < r0.score := by
    have h := hmementry
    rw [hL] at h
    rcases List.mem_cons.mp h with heq | hin
    · rw [← heq]
      exact hpos
    · have hrel := List.rel_of_sorted_cons (hL ▸ hsorted) _ hin
      have hrel2 : (e.moduleEntry observed_hpo_ids excluded_hpo_ids m).score ≤ r0.score :=
        hrel
      rw [moduleEntry_score] at hrel2
      exact lt_of_lt_of_le hpos hrel2
  have hr0id : r0.module_id = m := by
    obtain ⟨mid, hmid, hr0eq⟩ := hLentries r0 hr0mem
    by_cases hmid_m : mid = m
    · rw [hr0eq, moduleEntry_module_id, hmid_m]
    · exfalso
      have h0 : r0.score = 0 := by
        rw [hr0eq, moduleEntry_score]
        exact hzero mid hmid hmid_m
      rw [h0] at hr0pos
      exact lt_irrefl 0 hr0pos
  have htid : ∀ y ∈ t, y.module_id ≠ m := by
    intro y hy hym
    have hmap := hmap_nodup
    rw [hL, List.map_cons, List.nodup_cons] at hmap
    apply hmap.1
    rw [hr0id, ← hym]
    exact List.mem_map_of_mem _ hy
  have htscore : ∀ y ∈ t, y.score = 0 := by
    intro y hy
    have hyL : y ∈ L := by
      rw [hL]
      exact List.mem_cons_of_mem _ hy
    obtain ⟨mid, hmid, hyeq⟩ := hLentries y hyL
    have hmid_ne : mid ≠ m := by
      intro hc
      exact htid y hy (by rw [hyeq, moduleEntry_module_id, hc])
    rw [hyeq, moduleEntry_score]
    exact hzero mid hmid hmid_ne
  have hrank : e.rank_modules observed_hpo_ids excluded_hpo_ids = assignConfidence L := by
    rw [hLdef, hrawdef, hids]
    rfl
  cases t with
  | nil =>
    rw [hrank, hL]
    simp only [assignConfidence, if_pos hr0pos]
    constructor
    · exact ⟨_, List.mem_singleton_self _, hr0id⟩
    · intro mm hmm _
      rw [List.mem_singleton] at hmm
      subst hmm
      rfl
  | cons r1 rest =>
    have hr1 : r1.score = 0 := htscore r1 (List.mem_cons_self _ _)
    have hc0 : min 1 (max 0 ((r0.score - r1.score) / r0.score)) = 1 := by
      rw [hr1, sub_zero, div_self (ne_of_gt hr0pos)]
      norm_num
    rw [hrank, hL]
    simp only [assignConfidence, if_pos hr0pos]
    constructor
    · exact ⟨_, List.mem_cons_self _ _, hr0id⟩
    · intro mm hmm hmmid
      rcases List.mem_cons.mp hmm with heq | hin
      · subst heq
        exact hc0
      · exfalso
        obtain ⟨y, hy, hyeq⟩ := List.mem_map.mp hin
        have hmmy : mm.module_id = y.module_id := by
          rw [← hyeq]
        exact htid y hy (hmmy.symm.trans hmmid)

/-- Witness for C3: on the demo data, only module 1 scores positive for the
observed set, and its returned match has confidence exactly 1. -/
theorem rank_modules_unique_positive_confidence_witness :
    (demoEngine.loader.module_profiles.map Prod.fst).Nodup ∧
      (1:ℤ) ∈ demoEngine.loader.get_all_module_ids ∧
      0 < (demoEngine.score_module 1 ["HP:0001513"] []).1 ∧
      ((∃ mm ∈ demoEngine.rank_modules ["HP:0001513"] [], mm.module_id = 1) ∧
        ∀ mm ∈ demoEngine.rank_modules ["HP:0001513"] [],
          mm.module_id = 1 → mm.confidence = 1) :=
  ⟨by decide, by decide,
    by
      norm_num [ScoringEngine.score_module, ScoringEngine.observedItems,
        ScoringEngine.excludedItems, ScoringEngine.score_phenotype,
        DataLoader.get_module_profile, demoEngine, demoLoader, moduleOne,
        phenoObesity, phenoPolydactyly, phenoZero, assocFind,
        defaultScoringConfig, List.filterMap_cons],
    rank_modules_unique_positive_confidence demoEngine ["HP:0001513"] [] 1
      (by decide) (by decide)
      (by
        norm_num [ScoringEngine.score_module, ScoringEngine.observedItems,
          ScoringEngine.excludedItems, ScoringEngine.score_phenotype,
          DataLoader.get_module_profile, demoEngine, demoLoader, moduleOne,
          phenoObesity, phenoPolydactyly, phenoZero, assocFind,
          defaultScoringConfig, List.filterMap_cons])
      (by
        intro m2 hm2 hne
        have hids : demoEngine.loader.get_all_module_ids = [1, 2] := by decide
        rw [hids] at hm2
        rcases List.mem_cons.mp hm2 with h1 | h2
        · exact absurd h1 hne
        · rcases List.mem_cons.mp h2 with h1 | h3
          · subst h1
            norm_num [ScoringEngine.score_module, ScoringEngine.observedItems,
              ScoringEngine.excludedItems, DataLoader.get_module_profile,
              demoEngine, demoLoader, moduleTwo, assocFind]
          · exact absurd h3 (List.not_mem_nil m2))⟩

lemma assocFind_mem {κ α : Type} [DecidableEq κ] {l : List (κ × α)} {k : κ} {v : α}
    (h : assocFind l k = some v) : (k, v) ∈ l := by
  induction l with
  | nil => simp [assocFind] at h
  | cons hd tl ih =>
    obtain ⟨k2, v2⟩ := hd
    simp only [assocFind] at h
    split_ifs at h with hc
    · injection h with h2
      subst h2
      subst hc
      exact List.mem_cons_self _ _
    · exact List.mem_cons_of_mem _ (ih h)

lemma score_module_fst_eq (e : ScoringEngine) (module_id : ℤ) (profile : ModuleProfile)
    (h : e.loader.get_module_profile module_id = some profile)
    (observed_hpo_ids excluded_hpo_ids : List String) :
    (e.score_module module_id observed_hpo_ids excluded_hpo_ids).1 =
      max 0 (((e.observedItems profile observed_hpo_ids).map
          ExplainabilityItem.contribution).sum +
        ((e.excludedItems profile excluded_hpo_ids).map
          ExplainabilityItem.contribution).sum) := by
  unfold ScoringEngine.score_module
  rw [h]

/-- The penalty charged by score_module for one excluded identifier. -/
def exclusionPenaltyAt (e : ScoringEngine) (profile : ModuleProfile)
    (hpo_id : String) : ℚ :=
  match assocFind profile.phenotypes hpo_id with
  | some pheno =>
    if 0 < pheno.prevalence then e.score_phenotype pheno * e.config.exclusion_penalty
    else 0
  | none => 0

lemma excludedItems_contrib_sum_eq (e : ScoringEngine) (profile : ModuleProfile)
    (excluded_hpo_ids : List String) :
    ((e.excludedItems profile excluded_hpo_ids).map ExplainabilityItem.contribution).sum =
      -(excluded_hpo_ids.map (exclusionPenaltyAt e profile)).sum := by
  rw [excludedItems_contrib_sum]
  rfl

lemma exclusionPenaltyAt_nonneg (e : ScoringEngine) (profile : ModuleProfile)
    (hw1 : 0 ≤ e.config.prevalence_weight) (hw2 : 0 ≤ e.config.specificity_weight)
    (hw3 : 0 ≤ e.config.exclusion_penalty)
    (hspec : ∀ p ∈ profile.phenotypes, 0 ≤ p.2.specificity) (hpo_id : String) :
    0 ≤ exclusionPenaltyAt e profile hpo_id := by
  unfold exclusionPenaltyAt
  cases hf : assocFind profile.phenotypes hpo_id with
  | none => exact le_refl 0
  | some pheno =>
    show 0 ≤
      if 0 < pheno.prevalence then e.score_phenotype pheno * e.config.exclusion_penalty
      else 0
    by_cases hp : 0 < pheno.prevalence
    · rw [if_pos hp]
      apply mul_nonneg _ hw3
      unfold ScoringEngine.score_phenotype
      have hs : 0 ≤ pheno.specificity := hspec (hpo_id, pheno) (assocFind_mem hf)
      have hpr : 0 ≤ pheno.prevalence := le_of_lt hp
      exact add_nonneg (mul_nonneg hw1 (div_nonneg hpr (by norm_num)))
        (mul_nonneg hw2 (div_nonneg hs (by norm_num)))
    · rw [if_neg hp]

lemma sum_map_le_of_subset (f : String → ℚ) (hf : ∀ x, 0 ≤ f x)
    (E1 E2 : List String) (h1 : E1.Nodup) (h2 : E2.Nodup) (hsub : E1 ⊆ E2) :
    (E1.map f).sum ≤ (E2.map f).sum := by
  rw [← List.sum_toFinset f h1, ← List.sum_toFinset f h2]
  apply Finset.sum_le_sum_of_subset_of_nonneg
  · intro x hx
    rw [List.mem_toFinset] at hx ⊢
    exact hsub hx
  · intro i _ _
    exact hf i

/-- C5: with nonnegative weights (the defaults included) and specification-
conformant data (specificity nonnegative), growing the excluded set while the
observed set is fixed never increases any module score. -/
theorem score_module_antitone_in_exclusions (e : ScoringEngine) (module_id : ℤ)
    (observed_hpo_ids E1 E2 : List String)
    (hw1 : 0 ≤ e.config.prevalence_weight) (hw2 : 0 ≤ e.config.specificity_weight)
    (hw3 : 0 ≤ e.config.exclusion_penalty)
    (hspec : ∀ profile, e.loader.get_module_profile module_id = some profile →
      ∀ p ∈ profile.phenotypes, 0 ≤ p.2.specificity)
    (h1 : E1.Nodup) (h2 : E2.Nodup) (hsub : E1 ⊆ E2) :
    (e.score_module module_id observed_hpo_ids E2).1 ≤
      (e.score_module module_id observed_hpo_ids E1).1 := by
  cases hp : e.loader.get_module_profile module_id with
  | none =>
    unfold ScoringEngine.score_module
    rw [hp]
  | some profile =>
    rw [score_module_fst_eq e module_id profile hp,
      score_module_fst_eq e module_id profile hp,
      excludedItems_contrib_sum_eq, excludedItems_contrib_sum_eq]
    apply max_le_max (le_refl 0)
    apply add_le_add_left
    apply neg_le_neg
    exact sum_map_le_of_subset (exclusionPenaltyAt e profile)
      (exclusionPenaltyAt_nonneg e profile hw1 hw2 hw3 (hspec profile hp)) E1 E2 h1 h2 hsub

/-- Witness for C5 on the demo data with nested excluded sets. -/
theorem score_module_antitone_in_exclusions_witness :
    0 ≤ demoEngine.config.prevalence_weight ∧
      0 ≤ demoEngine.config.specificity_weight ∧
      0 ≤ demoEngine.config.exclusion_penalty ∧
      (["HP:0010442"] : List String).Nodup ∧
      (["HP:0010442", "HP:0001513"] : List String).Nodup ∧
      (["HP:0010442"] : List String) ⊆ ["HP:0010442", "HP:0001513"] ∧
      (demoEngine.score_module 1 ["HP:0001513"] ["HP:0010442", "HP:0001513"]).1 ≤
        (demoEngine.score_module 1 ["HP:0001513"] ["HP:0010442"]).1 :=
  ⟨by norm_num [demoEngine, defaultScoringConfig],
    by norm_num [demoEngine, defaultScoringConfig],
    by norm_num [demoEngine, defaultScoringConfig],
    by decide, by decide,
    by
      intro a ha
      rw [List.mem_singleton] at ha
      subst ha
      exact List.mem_cons_self _ _,
    score_module_antitone_in_exclusions demoEngine 1 ["HP:0001513"]
      ["HP:0010442"] ["HP:0010442", "HP:0001513"]
      (by norm_num [demoEngine, defaultScoringConfig])
      (by norm_num [demoEngine, defaultScoringConfig])
      (by norm_num [demoEngine, defaultScoringConfig])
      (by
        intro profile hp
        have hpm : profile = moduleOne := by
          have h := hp
          rw [show demoEngine.loader.get_module_profile 1 = some moduleOne from rfl] at h
          exact (Option.some.inj h).symm
        subst hpm
        decide)
      (by decide) (by decide)
      (by
        intro a ha
        rw [List.mem_singleton] at ha
        subst ha
        exact List.mem_cons_self _ _)⟩

/-- Update one key of an association list in place, appending a fresh entry at
the end when the key is new (Python dict assignment semantics). -/
def assocSet {α : Type} : List (String × α) → String → α → List (String × α)
  | [], key, v => [(key, v)]
  | (k, v2) :: rest, key, v =>
    if k = key then (key, v) :: rest else (k, v2) :: assocSet rest key v

/-- The classification-based adjustment applied after support scoring in
rank_genes: plus the bonus for core genes, minus half of it for unstable
genes, nothing for any other classification. -/
def stabilityAdjust (config : ScoringConfig) (classification : String) : ℚ :=
  if classification = "core" then config.stability_bonus
  else if classification = "unstable" then -(config.stability_bonus * (1/2))
  else 0

/-- The descending (support score, stability score) ordering used to sort
gene candidates. -/
def geneRankDesc (a b : GeneCandidate) : Prop :=
  b.support_score < a.support_score ∨
    (b.support_score = a.support_score ∧ b.stability_score ≤ a.stability_score)

instance : DecidableRel geneRankDesc := fun a b =>
  inferInstanceAs (Decidable (b.support_score < a.support_score ∨
    (b.support_score = a.support_score ∧ b.stability_score ≤ a.stability_score)))

/-- scoring_engine.ScoringEngine.rank_genes: accumulate phenotype support per
gene over the observed identifiers, add all module genes that gained no
support, attach gene info (dropping genes without any), apply the stability
adjustment, and sort. -/
def ScoringEngine.rank_genes (e : ScoringEngine) (module_id : ℤ)
    (observed_hpo_ids : List String) : List GeneCandidate :=
  match e.loader.get_module_profile module_id with
  | none => []
  | some profile =>
    let supportStep := fun (gene_scores : List (String × (ℚ × List String)))
        (hpo_id : String) =>
      match assocFind profile.phenotypes hpo_id with
      | none => gene_scores
      | some pheno =>
        let contribution := e.score_phenotype pheno
        pheno.genes_with.foldl
          (fun gs gene =>
            let current := (assocFind gs gene).getD (0, [])
            assocSet gs gene (current.1 + contribution, current.2 ++ [pheno.name]))
          gene_scores
    let withSupport := observed_hpo_ids.foldl supportStep []
    let withAllGenes := (e.loader.get_module_genes module_id).foldl
      (fun gs gene =>
        if (assocFind gs gene).isSome then gs else gs ++ [(gene, (0, []))])
      withSupport
    let candidates := withAllGenes.filterMap fun entry =>
      (e.loader.get_gene_info entry.1).map fun gene_info =>
        { gene := entry.1
          module_id := module_id
          support_score := entry.2.1 + stabilityAdjust e.config gene_info.classification
          stability_score := gene_info.stability_score
          classification := gene_info.classification
          supporting_phenotypes := entry.2.2 : GeneCandidate }
    List.insertionSort geneRankDesc candidates

/-- C8: for a module identifier without a loaded profile the engine degrades
instead of failing: score_module returns score 0 with an empty explanation
list and rank_genes returns an empty list (both functions are total over the
module identifier domain by construction). -/
theorem unknown_module_degrades (e : ScoringEngine) (module_id : ℤ)
    (h : e.loader.get_module_profile module_id = none)
    (observed_hpo_ids excluded_hpo_ids : List String) :
    e.score_module module_id observed_hpo_ids excluded_hpo_ids = (0, []) ∧
      e.rank_genes module_id observed_hpo_ids = [] := by
  constructor
  · unfold ScoringEngine.score_module
    rw [h]
  · unfold ScoringEngine.rank_genes
    rw [h]

/-- Witness for C8: module 99 is unknown to the demo loader. -/
theorem unknown_module_degrades_witness :
    demoEngine.loader.get_module_profile 99 = none ∧
      demoEngine.score_module 99 ["HP:0001513"] ["HP:0010442"] = (0, []) ∧
      demoEngine.rank_genes 99 ["HP:0001513"] = [] :=
  ⟨by decide,
    (unknown_module_degrades demoEngine 99 (by decide) ["HP:0001513"] ["HP:0010442"]).1,
    (unknown_module_degrades demoEngine 99 (by decide) ["HP:0001513"] ["HP:0010442"]).2⟩

lemma assocFind_append {κ α : Type} [DecidableEq κ] (l1 l2 : List (κ × α)) (k : κ) :
    assocFind (l1 ++ l2) k =
      match assocFind l1 k with
      | some v => some v
      | none => assocFind l2 k := by
  induction l1 with
  | nil => rfl
  | cons hd tl ih =>
    obtain ⟨k2, v2⟩ := hd
    simp only [List.cons_append, assocFind]
    split_ifs with hc
    · rfl
    · exact ih

lemma foldl_add_module_genes (gs : List String)
    (acc : List (String × (ℚ × List String))) (hnd : gs.Nodup)
    (hdisj : ∀ g ∈ gs, assocFind acc g = none) :
    gs.foldl (fun gsacc gene =>
        if (assocFind gsacc gene).isSome then gsacc
        else gsacc ++ [(gene, (0, []))]) acc =
      acc ++ gs.map (fun g => (g, ((0:ℚ), ([] : List String)))) := by
  induction gs generalizing acc with
  | nil => simp
  | cons g t ih =>
    rw [List.foldl_cons]
    have hg : assocFind acc g = none := hdisj g (List.mem_cons_self _ _)
    rw [List.nodup_cons] at hnd
    have hstep : (if (assocFind acc g).isSome then acc
        else acc ++ [(g, ((0:ℚ), ([] : List String)))]) =
        acc ++ [(g, (0, []))] := by
      rw [hg]
      rfl
    rw [hstep]
    rw [ih (acc ++ [(g, (0, []))]) hnd.2 ?newdisj]
    · rw [List.append_assoc]
      rfl
    case newdisj =>
      intro x hx
      rw [assocFind_append, hdisj x (List.mem_cons_of_mem _ hx)]
      have hxg : g ≠ x := fun hc => hnd.1 (hc ▸ hx)
      simp [assocFind, hxg]

lemma filterMap_candidates_map_gene (e : ScoringEngine) (module_id : ℤ)
    (gs : List String)
    (hinfo : ∀ g ∈ gs, (e.loader.get_gene_info g).isSome) :
    ((gs.filterMap fun g =>
        (e.loader.get_gene_info g).map fun gene_info =>
          ({ gene := g
             module_id := module_id
             support_score := stabilityAdjust e.config gene_info.classification
             stability_score := gene_info.stability_score
             classification := gene_info.classification
             supporting_phenotypes := [] } : GeneCandidate)).map GeneCandidate.gene) =
      gs := by
  induction gs with
  | nil => rfl
  | cons g t ih =>
    rw [List.filterMap_cons]
    cases hg : e.loader.get_gene_info g with
    | none =>
      exfalso
      have h := hinfo g (List.mem_cons_self _ _)
      rw [hg] at h
      simp at h
    | some gi =>
      simp only [Option.map_some']
      rw [List.map_cons, ih fun x hx => hinfo x (List.mem_cons_of_mem _ hx)]

/-- C6: for a known module, rank_genes with an empty observed set returns (up
to the final sort, a permutation) one GeneCandidate for every module gene,
each carrying only its classification-based stability adjustment as
support_score and an empty supporting-phenotype list; in particular the
returned gene symbols are exactly the module gene set. -/
theorem rank_genes_empty_observed (e : ScoringEngine) (module_id : ℤ)
    (profile : ModuleProfile)
    (hprof : e.loader.get_module_profile module_id = some profile)
    (hnd : (e.loader.get_module_genes module_id).Nodup)
    (hinfo : ∀ g ∈ e.loader.get_module_genes module_id,
      (e.loader.get_gene_info g).isSome) :
    List.Perm (e.rank_genes module_id [])
        ((e.loader.get_module_genes module_id).filterMap fun g =>
          (e.loader.get_gene_info g).map fun gene_info =>
            ({ gene := g
               module_id := module_id
               support_score := stabilityAdjust e.config gene_info.classification
               stability_score := gene_info.stability_score
               classification := gene_info.classification
               supporting_phenotypes := [] } : GeneCandidate)) ∧
      List.Perm ((e.rank_genes module_id []).map GeneCandidate.gene)
        (e.loader.get_module_genes module_id) := by
  have hre : e.rank_genes module_id [] = List.insertionSort geneRankDesc
      ((e.loader.get_module_genes module_id).filterMap fun g =>
        (e.loader.get_gene_info g).map fun gene_info =>
          ({ gene := g
             module_id := module_id
             support_score := stabilityAdjust e.config gene_info.classification
             stability_score := gene_info.stability_score
             classification := gene_info.classification
             supporting_phenotypes := [] } : GeneCandidate)) := by
    unfold ScoringEngine.rank_genes
    rw [hprof]
    simp only [List.foldl_nil]
    rw [foldl_add_module_genes (e.loader.get_module_genes module_id) [] hnd
      (fun g _ => rfl)]
    rw [List.nil_append, List.filterMap_map]
    refine congrArg (List.insertionSort geneRankDesc) ?_
    refine congrArg₂ List.filterMap ?_ rfl
    funext g
    simp only [Function.comp_apply]
    cases e.loader.get_gene_info g with
    | none => rfl
    | some gi => simp [zero_add]
  constructor
  · rw [hre]
    exact List.perm_insertionSort _ _
  · rw [hre]
    have hp := (List.perm_insertionSort geneRankDesc
      ((e.loader.get_module_genes module_id).filterMap fun g =>
        (e.loader.get_gene_info g).map fun gene_info =>
          ({ gene := g
             module_id := module_id
             support_score := stabilityAdjust e.config gene_info.classification
             stability_score := gene_info.stability_score
             classification := gene_info.classification
             supporting_phenotypes := [] } : GeneCandidate))).map GeneCandidate.gene
    rw [filterMap_candidates_map_gene e module_id _ hinfo] at hp
    exact hp

/-- Witness for C6 on the demo data for module 1. -/
theorem rank_genes_empty_observed_witness :
    demoEngine.loader.get_module_profile 1 = some moduleOne ∧
      (demoEngine.loader.get_module_genes 1).Nodup ∧
      (∀ g ∈ demoEngine.loader.get_module_genes 1,
        (demoEngine.loader.get_gene_info g).isSome) ∧
      (List.Perm (demoEngine.rank_genes 1 [])
          ((demoEngine.loader.get_module_genes 1).filterMap fun g =>
            (demoEngine.loader.get_gene_info g).map fun gene_info =>
              ({ gene := g
                 module_id := 1
                 support_score := stabilityAdjust demoEngine.config gene_info.classification
                 stability_score := gene_info.stability_score
                 classification := gene_info.classification
                 supporting_phenotypes := [] } : GeneCandidate)) ∧
        List.Perm ((demoEngine.rank_genes 1 []).map GeneCandidate.gene)
          (demoEngine.loader.get_module_genes 1)) :=
  ⟨by decide, by decide, by decide,
    rank_genes_empty_observed demoEngine 1 moduleOne (by decide) (by decide) (by decide)⟩

/-- Configuration for prediction thresholds (prediction_engine.PredictionConfig). -/
structure PredictionConfig where
  min_prevalence : ℚ
  min_specificity : ℚ
  max_predictions : ℕ
deriving DecidableEq, Repr

/-- Default field values of prediction_engine.PredictionConfig. -/
def defaultPredictionConfig : PredictionConfig :=
  { min_prevalence := 20, min_specificity := 5, max_predictions := 10 }

/-- prediction_engine.PredictionEngine: a loader plus a prediction
configuration; it holds no scoring configuration. -/
structure PredictionEngine where
  loader : DataLoader
  config : PredictionConfig
deriving DecidableEq, Repr

/-- The descending absolute-contribution ordering used to sort explanations. -/
def absContribDesc (a b : ExplainabilityItem) : Prop :=
  |b.contribution| ≤ |a.contribution|

instance : DecidableRel absContribDesc := fun a b =>
  inferInstanceAs (Decidable (|b.contribution| ≤ |a.contribution|))

/-- prediction_engine.PredictionEngine.explain_scoring: one entry per observed
identifier (contribution (prevalence+specificity)/200 when found, 0 with an
unknown tag when not), one entry per excluded identifier found with positive
prevalence (contribution -(prevalence+specificity)/400), sorted by absolute
contribution descending. -/
def PredictionEngine.explain_scoring (pe : PredictionEngine) (module_id : ℤ)
    (observed_hpo_ids excluded_hpo_ids : List String) : List ExplainabilityItem :=
  match pe.loader.get_module_profile module_id with
  | none => []
  | some profile =>
    let observedPart := observed_hpo_ids.map fun hpo_id =>
      match assocFind profile.phenotypes hpo_id with
      | some pheno =>
        { phenotype_name := pheno.name
          hpo_id := hpo_id
          contribution := (pheno.prevalence + pheno.specificity) / 200
          explanation := "Supports module" : ExplainabilityItem }
      | none =>
        { phenotype_name := "Unknown"
          hpo_id := hpo_id
          contribution := 0
          explanation := "Phenotype not present in module profile" }
    let excludedPart := excluded_hpo_ids.filterMap fun hpo_id =>
      (assocFind profile.phenotypes hpo_id).bind fun pheno =>
        if 0 < pheno.prevalence then
          some { phenotype_name := pheno.name
                 hpo_id := hpo_id
                 contribution := -((pheno.prevalence + pheno.specificity) / 400)
                 explanation := "Penalizes module" }
        else none
    List.insertionSort absContribDesc (observedPart ++ excludedPart)

/-- C7: for every excluded identifier found in the module with positive
prevalence, explain_scoring contains an item whose contribution is exactly
-(prevalence+specificity)/400; the formula reads no scoring configuration at
all, in particular not the configurable exclusion_penalty, so the explained
penalty is the same for any two runs that differ only in that field. -/
theorem explain_scoring_exclusion_contribution (pe : PredictionEngine)
    (module_id : ℤ) (profile : ModuleProfile)
    (hprof : pe.loader.get_module_profile module_id = some profile)
    (observed_hpo_ids excluded_hpo_ids : List String) (hpo_id : String)
    (pheno : PhenotypeProfile)
    (hmem : hpo_id ∈ excluded_hpo_ids)
    (hfind : assocFind profile.phenotypes hpo_id = some pheno)
    (hprev : 0 < pheno.prevalence) :
    ∃ item ∈ pe.explain_scoring module_id observed_hpo_ids excluded_hpo_ids,
      item.hpo_id = hpo_id ∧
        item.contribution = -((pheno.prevalence + pheno.specificity) / 400) := by
  refine ⟨{ phenotype_name := pheno.name
            hpo_id := hpo_id
            contribution := -((pheno.prevalence + pheno.specificity) / 400)
            explanation := "Penalizes module" }, ?_, rfl, rfl⟩
  unfold PredictionEngine.explain_scoring
  rw [hprof]
  rw [List.mem_insertionSort]
  apply List.mem_append_right
  apply List.mem_filterMap.mpr
  refine ⟨hpo_id, hmem, ?_⟩
  rw [hfind]
  simp [hprev]

/-- A prediction engine over the demo loader with default thresholds. -/
def demoPredictionEngine : PredictionEngine :=
  { loader := demoLoader, config := defaultPredictionConfig }

/-- Witness for C7 on the demo data: excluding Obesity from module 1. -/
theorem explain_scoring_exclusion_contribution_witness :
    demoPredictionEngine.loader.get_module_profile 1 = some moduleOne ∧
      "HP:0001513" ∈ (["HP:0001513"] : List String) ∧
      assocFind moduleOne.phenotypes "HP:0001513" = some phenoObesity ∧
      0 < phenoObesity.prevalence ∧
      ∃ item ∈ demoPredictionEngine.explain_scoring 1 ["HP:0010442"] ["HP:0001513"],
        item.hpo_id = "HP:0001513" ∧
          item.contribution =
            -((phenoObesity.prevalence + phenoObesity.specificity) / 400) :=
  ⟨by decide, by decide, by decide, by decide,
    explain_scoring_exclusion_contribution demoPredictionEngine 1 moduleOne
      (by decide) ["HP:0010442"] ["HP:0001513"] "HP:0001513" phenoObesity
      (by decide) (by decide) (by decide)⟩

/-- User response to a phenotype question (decision_tree.Response). -/
inductive Response where
  | yes
  | no
  | unknown
deriving DecidableEq, Repr

/-- Current state of an interactive session (decision_tree.SessionState): the
three answer sets plus the append-only history of (name, id, response). -/
structure SessionState where
  observed : Finset String
  excluded : Finset String
  unknown : Finset String
  history : List (String × String × Response)
deriving DecidableEq

/-- The fresh session state (decision_tree.SessionState defaults). -/
def SessionState.initial : SessionState :=
  { observed := ∅, excluded := ∅, unknown := ∅, history := [] }

/-- decision_tree.InteractiveSession.answer: resolve the identifier (keeping
it as-is if unresolved), remove the key from all three sets, insert it into
the set matching the response, and append a history record. -/
def InteractiveSession.answer (loader : DataLoader) (st : SessionState)
    (identifier : String) (response : Response) (phenotype_name : Option String) :
    SessionState :=
  let hpo_id := (loader.resolve_phenotype identifier).getD identifier
  let observed := st.observed.erase hpo_id
  let excluded := st.excluded.erase hpo_id
  let unknown := st.unknown.erase hpo_id
  let name := phenotype_name.getD identifier
  match response with
  | Response.yes =>
    { observed := insert hpo_id observed
      excluded := excluded
      unknown := unknown
      history := st.history ++ [(name, hpo_id, response)] }
  | Response.no =>
    { observed := observed
      excluded := insert hpo_id excluded
      unknown := unknown
      history := st.history ++ [(name, hpo_id, response)] }
  | Response.unknown =>
    { observed := observed
      excluded := excluded
      unknown := insert hpo_id unknown
      history := st.history ++ [(name, hpo_id, response)] }

/-- One session operation: an answer call or a reset call. -/
inductive SessionOp where
  | answer (identifier : String) (response : Response) (phenotype_name : Option String)
  | reset
deriving DecidableEq

/-- Apply one session operation to the state (reset returns the fresh state,
as decision_tree.InteractiveSession.reset does). -/
def applySessionOp (loader : DataLoader) (st : SessionState) : SessionOp → SessionState
  | SessionOp.answer identifier response phenotype_name =>
    InteractiveSession.answer loader st identifier response phenotype_name
  | SessionOp.reset => SessionState.initial

/-- Run a sequence of session operations from a fresh session. -/
def runSession (loader : DataLoader) (ops : List SessionOp) : SessionState :=
  ops.foldl (applySessionOp loader) SessionState.initial

/-- The three session sets are pairwise disjoint. -/
def SessionInvariant (st : SessionState) : Prop :=
  Disjoint st.observed st.excluded ∧ Disjoint st.observed st.unknown ∧
    Disjoint st.excluded st.unknown

lemma answer_preserves_invariant (loader : DataLoader) (st : SessionState)
    (identifier : String) (response : Response) (phenotype_name : Option String)
    (h : SessionInvariant st) :
    SessionInvariant (InteractiveSession.answer loader st identifier response
      phenotype_name) := by
  obtain ⟨h1, h2, h3⟩ := h
  have e12 : ∀ x : String, Disjoint (st.observed.erase x) (st.excluded.erase x) :=
    fun x => Finset.disjoint_of_subset_left (Finset.erase_subset x _)
      (Finset.disjoint_of_subset_right (Finset.erase_subset x _) h1)
  have e13 : ∀ x : String, Disjoint (st.observed.erase x) (st.unknown.erase x) :=
    fun x => Finset.disjoint_of_subset_left (Finset.erase_subset x _)
      (Finset.disjoint_of_subset_right (Finset.erase_subset x _) h2)
  have e23 : ∀ x : String, Disjoint (st.excluded.erase x) (st.unknown.erase x) :=
    fun x => Finset.disjoint_of_subset_left (Finset.erase_subset x _)
      (Finset.disjoint_of_subset_right (Finset.erase_subset x _) h3)
  cases response with
  | yes =>
    simp only [InteractiveSession.answer]
    refine ⟨?_, ?_, e23 _⟩
    · rw [Finset.disjoint_insert_left]
      exact ⟨Finset.not_mem_erase _ _, e12 _⟩
    · rw [Finset.disjoint_insert_left]
      exact ⟨Finset.not_mem_erase _ _, e13 _⟩
  | no =>
    simp only [InteractiveSession.answer]
    refine ⟨?_, e13 _, ?_⟩
    · rw [Finset.disjoint_insert_right]
      exact ⟨Finset.not_mem_erase _ _, e12 _⟩
    · rw [Finset.disjoint_insert_left]
      exact ⟨Finset.not_mem_erase _ _, e23 _⟩
  | unknown =>
    simp only [InteractiveSession.answer]
    refine ⟨e12 _, ?_, ?_⟩
    · rw [Finset.disjoint_insert_right]
      exact ⟨Finset.not_mem_erase _ _, e13 _⟩
    · rw [Finset.disjoint_insert_right]
      exact ⟨Finset.not_mem_erase _ _, e23 _⟩

lemma sessionInvariant_initial : SessionInvariant SessionState.initial := by
  refine ⟨?_, ?_, ?_⟩ <;> simp [SessionState.initial]

lemma sessionInvariant_runSession (loader : DataLoader) (ops : List SessionOp) :
    SessionInvariant (runSession loader ops) := by
  unfold runSession
  suffices haux : ∀ (ops2 : List SessionOp) (st : SessionState), SessionInvariant st →
      SessionInvariant (ops2.foldl (applySessionOp loader) st) from
    haux ops SessionState.initial sessionInvariant_initial
  intro ops2
  induction ops2 with
  | nil => exact fun st h => h
  | cons op t ih =>
    intro st h
    rw [List.foldl_cons]
    apply ih
    cases op with
    | answer identifier response phenotype_name =>
      exact answer_preserves_invariant loader st identifier response phenotype_name h
    | reset => exact sessionInvariant_initial

/-- C9: after any sequence of answer and reset operations from a fresh
session, the observed, excluded and unknown sets are pairwise disjoint, so an
identifier belongs to at most one of the three sets at any point. -/
theorem session_sets_pairwise_disjoint (loader : DataLoader) (ops : List SessionOp) :
    Disjoint (runSession loader ops).observed (runSession loader ops).excluded ∧
      Disjoint (runSession loader ops).observed (runSession loader ops).unknown ∧
      Disjoint (runSession loader ops).excluded (runSession loader ops).unknown :=
  sessionInvariant_runSession loader ops

/-- The session set matching a response. -/
def SessionState.responseSet (st : SessionState) : Response → Finset String
  | Response.yes => st.observed
  | Response.no => st.excluded
  | Response.unknown => st.unknown

lemma assocFind_eq_none_of_not_mem_keys {κ α : Type} [DecidableEq κ]
    {l : List (κ × α)} {k : κ} (h : ∀ p ∈ l, p.1 ≠ k) : assocFind l k = none := by
  induction l with
  | nil => rfl
  | cons hd tl ih =>
    obtain ⟨k2, v2⟩ := hd
    simp only [assocFind]
    rw [if_neg (h (k2, v2) (List.mem_cons_self _ _))]
    exact ih fun p hp => h p (List.mem_cons_of_mem _ hp)

lemma unresolved_not_profile_key (loader : DataLoader) (identifier : String)
    (hres : loader.resolve_phenotype identifier = none)
    (hkeys : ∀ mp ∈ loader.module_profiles, ∀ entry ∈ mp.2.phenotypes,
      (assocFind loader.phenotype_to_modules entry.1).isSome = true ∧
        strStartsWith entry.1 "HP:" = true)
    (module_id : ℤ) (profile : ModuleProfile)
    (hprof : loader.get_module_profile module_id = some profile) :
    assocFind profile.phenotypes identifier = none := by
  apply assocFind_eq_none_of_not_mem_keys
  intro p hp hpk
  have hmp : (module_id, profile) ∈ loader.module_profiles := assocFind_mem hprof
  have hk := hkeys (module_id, profile) hmp p hp
  unfold DataLoader.resolve_phenotype at hres
  by_cases hsw : strStartsWith identifier "HP:" = true
  · rw [if_pos hsw] at hres
    by_cases hsome : (assocFind loader.phenotype_to_modules identifier).isSome = true
    · rw [if_pos hsome] at hres
      exact Option.noConfusion hres
    · exact hsome (hpk ▸ hk.1)
  · exact hsw (hpk ▸ hk.2)

lemma score_module_some (e : ScoringEngine) (module_id : ℤ) (profile : ModuleProfile)
    (h : e.loader.get_module_profile module_id = some profile)
    (observed_hpo_ids excluded_hpo_ids : List String) :
    e.score_module module_id observed_hpo_ids excluded_hpo_ids =
      (max 0 (((e.observedItems profile observed_hpo_ids).map
          ExplainabilityItem.contribution).sum +
        ((e.excludedItems profile excluded_hpo_ids).map
          ExplainabilityItem.contribution).sum),
        e.observedItems profile observed_hpo_ids ++
          e.excludedItems profile excluded_hpo_ids) := by
  unfold ScoringEngine.score_module
  rw [h]

lemma score_module_cons_obs_unfound (e : ScoringEngine) (module_id : ℤ)
    (identifier : String) (observed_hpo_ids excluded_hpo_ids : List String)
    (hnone : ∀ profile, e.loader.get_module_profile module_id = some profile →
      assocFind profile.phenotypes identifier = none) :
    e.score_module module_id (identifier :: observed_hpo_ids) excluded_hpo_ids =
      e.score_module module_id observed_hpo_ids excluded_hpo_ids := by
  cases hp : e.loader.get_module_profile module_id with
  | none =>
    unfold ScoringEngine.score_module
    rw [hp]
  | some profile =>
    rw [score_module_some e module_id profile hp,
      score_module_some e module_id profile hp,
      observedItems_cons_none e profile observed_hpo_ids (hnone profile hp)]

lemma score_module_cons_exc_unfound (e : ScoringEngine) (module_id : ℤ)
    (identifier : String) (observed_hpo_ids excluded_hpo_ids : List String)
    (hnone : ∀ profile, e.loader.get_module_profile module_id = some profile →
      assocFind profile.phenotypes identifier = none) :
    e.score_module module_id observed_hpo_ids (identifier :: excluded_hpo_ids) =
      e.score_module module_id observed_hpo_ids excluded_hpo_ids := by
  cases hp : e.loader.get_module_profile module_id with
  | none =>
    unfold ScoringEngine.score_module
    rw [hp]
  | some profile =>
    rw [score_module_some e module_id profile hp,
      score_module_some e module_id profile hp,
      excludedItems_cons_none e profile excluded_hpo_ids (hnone profile hp)]

/-- C10: an identifier that resolve_phenotype cannot resolve is not rejected:
answer inserts the raw string itself into the set matching the response and
appends it to the history; and, because such a string is never a key of any
phenotype map of an index-consistent loader whose keys are HP-prefixed, its
presence in the observed or excluded input leaves every module score (and
explanation list) unchanged. -/
theorem unresolved_identifier_verbatim (loader : DataLoader) (identifier : String)
    (hres : loader.resolve_phenotype identifier = none)
    (hkeys : ∀ mp ∈ loader.module_profiles, ∀ entry ∈ mp.2.phenotypes,
      (assocFind loader.phenotype_to_modules entry.1).isSome = true ∧
        strStartsWith entry.1 "HP:" = true) :
    (∀ (st : SessionState) (response : Response),
      identifier ∈
          (InteractiveSession.answer loader st identifier response none).responseSet
            response ∧
        (InteractiveSession.answer loader st identifier response none).history =
          st.history ++ [(identifier, identifier, response)]) ∧
      ∀ (e : ScoringEngine), e.loader = loader →
        ∀ (module_id : ℤ) (observed_hpo_ids excluded_hpo_ids : List String),
          e.score_module module_id (identifier :: observed_hpo_ids)
              excluded_hpo_ids =
            e.score_module module_id observed_hpo_ids excluded_hpo_ids ∧
          e.score_module module_id observed_hpo_ids
              (identifier :: excluded_hpo_ids) =
            e.score_module module_id observed_hpo_ids excluded_hpo_ids := by
  have hgd : (loader.resolve_phenotype identifier).getD identifier = identifier := by
    rw [hres]
    rfl
  constructor
  · intro st response
    cases response with
    | yes =>
      constructor
      · simp only [InteractiveSession.answer, hgd, SessionState.responseSet]
        exact Finset.mem_insert_self _ _
      · simp only [InteractiveSession.answer, hgd, Option.getD_none]
    | no =>
      constructor
      · simp only [InteractiveSession.answer, hgd, SessionState.responseSet]
        exact Finset.mem_insert_self _ _
      · simp only [InteractiveSession.answer, hgd, Option.getD_none]
    | unknown =>
      constructor
      · simp only [InteractiveSession.answer, hgd, SessionState.responseSet]
        exact Finset.mem_insert_self _ _
      · simp only [InteractiveSession.answer, hgd, Option.getD_none]
  · intro e he module_id observed_hpo_ids excluded_hpo_ids
    have hnone : ∀ profile, e.loader.get_module_profile module_id = some profile →
        assocFind profile.phenotypes identifier = none := by
      intro profile hprof
      apply unresolved_not_profile_key loader identifier hres hkeys module_id profile
      rw [← he]
      exact hprof
    exact ⟨score_module_cons_obs_unfound e module_id identifier observed_hpo_ids
        excluded_hpo_ids hnone,
      score_module_cons_exc_unfound e module_id identifier observed_hpo_ids
        excluded_hpo_ids hnone⟩

/-- Witness for C10: an unknown HP identifier on the demo data. -/
theorem unresolved_identifier_verbatim_witness :
    demoLoader.resolve_phenotype "HP:9999999" = none ∧
      "HP:9999999" ∈ (InteractiveSession.answer demoLoader SessionState.initial
          "HP:9999999" Response.yes none).responseSet Response.yes ∧
      demoEngine.score_module 1 ["HP:9999999", "HP:0001513"] [] =
        demoEngine.score_module 1 ["HP:0001513"] [] :=
  ⟨by decide,
    ((unresolved_identifier_verbatim demoLoader "HP:9999999" (by decide)
          (by decide)).1 SessionState.initial Response.yes).1,
    ((unresolved_identifier_verbatim demoLoader "HP:9999999" (by decide)
          (by decide)).2 demoEngine rfl 1 ["HP:0001513"] []).1⟩
